import Mathlib

/-!
Verification development for the DCCE hexagon-detection pipeline.

The pipeline has four stages operating on one uploaded image:
detection (DCNE.py), extraction of padded crops (extract_hexagons.py),
validation of each crop by a vision-language query
(extract_hexagon_info.py), and reconciliation/mapping of the validated
crops back onto the original image (enhanced_hexagon_processor.py),
sequenced by a Streamlit front end (hexagon_detection_app.py).

Modelling conventions:
* Python floats are modelled exactly over `ℚ`; every numeric claim checked
  here is insensitive to the difference between binary floating point and
  exact rational arithmetic at the inputs considered (the products involved
  land strictly inside the same unit interval either way).
* Python `int(x)` truncates toward zero; `pyInt` reproduces that.
* Python `x % y` on floats is floor-based (sign of the divisor); `pyMod`
  reproduces that for the positive divisors the code uses.
* File-system and HTTP effects are out of scope: each stage is modelled as
  the pure function from its parsed inputs to the record it writes, with
  `Bool` fields recording which output documents the stage writes.
-/

namespace DCCE

/-- Python `int()` applied to an exact rational: truncation toward zero. -/
def pyInt (q : ℚ) : ℤ := if 0 ≤ q then ⌊q⌋ else -⌊-q⌋

/-- Python `%` on reals (floor-based remainder, as for positive divisors). -/
def pyMod (a b : ℚ) : ℚ := a - b * ⌊a / b⌋

/-- Axis-aligned bounding box in image-relative coordinates, as produced by
the detection provider (`boundingBox` objects of the prediction payload). -/
structure BBox where
  left : ℚ
  top : ℚ
  width : ℚ
  height : ℚ
deriving DecidableEq

/-- One detection of the provider payload: `tagName`, `probability`,
`boundingBox` (DCNE.py / extract_hexagons.py read exactly these keys). -/
structure Prediction where
  tagName : String
  probability : ℚ
  boundingBox : BBox
deriving DecidableEq

/-! ### DCNE.py — annotation and the persisted detection record

`CustomVisionObjectDetector.visualize_detections` draws a rectangle for each
prediction whose probability is at or above the display threshold, then
writes a JSON record whose `predictions` key holds the *complete* provider
payload (the `predictions` variable is dumped unfiltered). -/

/-- Pixel rectangle drawn for one prediction: the code draws at
`[left*W, top*H, left*W + width*W, top*H + height*H]` without integer
conversion (floats are handed to the drawing call directly). -/
def drawRectOf (b : BBox) (W H : ℕ) : ℚ × ℚ × ℚ × ℚ :=
  (b.left * W, b.top * H, b.left * W + b.width * W, b.top * H + b.height * H)

/-- The detection record persisted by `visualize_detections`: the full
provider payload is serialised under the `predictions` key, with no
confidence filtering applied before the dump. -/
structure DetectionRecordFile where
  predictions : List Prediction
deriving DecidableEq

/-- Result of `visualize_detections`: which predictions got a rectangle
drawn (with the rectangle), and the persisted detection record. -/
structure VisualizeOutput where
  drawn : List (Prediction × (ℚ × ℚ × ℚ × ℚ))
  detection_record : DetectionRecordFile
deriving DecidableEq

/-- Shallow embedding of `visualize_detections` (DCNE.py lines 164-210):
only predictions with `probability >= confidence_threshold` are drawn;
the JSON record receives the unfiltered `predictions` payload. -/
def visualize_detections (preds : List Prediction) (W H : ℕ) (t : ℚ) :
    VisualizeOutput :=
  { drawn :=
      (preds.filter fun p => decide (t ≤ p.probability)).map
        fun p => (p, drawRectOf p.boundingBox W H)
  , detection_record := { predictions := preds } }

/-! ### extract_hexagons.py — the Extractor -/

/-- The survivor list of `extract_hexagons`: predictions with
`probability >= confidence_threshold`, in provider order (lines 102-106). -/
def high_confidence_predictions (preds : List Prediction) (t : ℚ) :
    List Prediction :=
  preds.filter fun p => decide (t ≤ p.probability)

/-- Crop rectangle in pixels, as computed by `extract_hexagons`
(lines 118-132): `crop_left`/`crop_top`/`crop_right`/`crop_bottom`. -/
structure CropRect where
  crop_left : ℤ
  crop_top : ℤ
  crop_right : ℤ
  crop_bottom : ℤ
deriving DecidableEq

/-- Pixel conversion, padding and clamping arithmetic of
`extract_hexagons` for one bounding box. The source hard-codes the
padding fraction 0.1 (line 124-126); it is a parameter `pf` here so the
clamping fact can be stated for every padding fraction, and the extractor
below instantiates `pf = 1/10`. -/
def cropRect (b : BBox) (W H : ℕ) (pf : ℚ) : CropRect :=
  let left := pyInt (b.left * W)
  let top := pyInt (b.top * H)
  let width := pyInt (b.width * W)
  let height := pyInt (b.height * H)
  let padding_x := pyInt ((width : ℚ) * pf)
  let padding_y := pyInt ((height : ℚ) * pf)
  { crop_left := max 0 (left - padding_x)
  , crop_top := max 0 (top - padding_y)
  , crop_right := min (W : ℤ) (left + width + padding_x)
  , crop_bottom := min (H : ℤ) (top + height + padding_y) }

/-- Zero-pad a number to three digits, as Python `f"{n:03d}"` does for the
values in range. -/
def pad3 (n : ℕ) : String :=
  if n < 10 then "00" ++ toString n
  else if n < 100 then "0" ++ toString n
  else toString n

/-- Python `f"{p:.0%}"`: the probability rendered as a percentage rounded
to the nearest integer. -/
def percentStr (q : ℚ) : String := toString (round (q * 100)).toNat ++ "%"

/-- Filename given to the crop of the survivor of 1-based rank `n`:
`f"hexagon_{i+1:03d}_conf_{probability:.0%}.png"` (line 138). -/
def hexFileName (n : ℕ) (prob : ℚ) : String :=
  "hexagon_" ++ pad3 n ++ "_conf_" ++ percentStr prob ++ ".png"

/-- One extracted artifact: its 1-based sequence index among the
extraction-threshold survivors, the source confidence, the crop rectangle
and the filename it is saved under. -/
structure Artifact where
  seqIndex : ℕ
  probability : ℚ
  crop : CropRect
  filename : String
deriving DecidableEq

/-- The extraction loop `for i, prediction in enumerate(high_confidence_predictions)`
with 1-based numbering `i+1`: `numberFrom W H n l` processes the survivors
`l` giving the first of them sequence index `n`. -/
def numberFrom (W H : ℕ) : ℕ → List Prediction → List Artifact
  | _, [] => []
  | n, p :: ps =>
      { seqIndex := n
      , probability := p.probability
      , crop := cropRect p.boundingBox W H (1/10)
      , filename := hexFileName n p.probability } :: numberFrom W H (n + 1) ps

/-- Shallow embedding of `extract_hexagons` (lines 102-143): filter the
predictions by the extraction threshold, then crop and number the
survivors in provider order starting at 1. -/
def extract_hexagons (preds : List Prediction) (W H : ℕ) (t : ℚ) :
    List Artifact :=
  numberFrom W H 1 (high_confidence_predictions preds t)

/-! ### extract_hexagon_info.py — the validation wrapper

`extract_info_from_hexagon` asks the vision-language provider about one
crop and post-processes the reply text (lines 154-190).  The reply handling
has three branches: the brace-delimited substring parses as JSON (the
parsed object, plus `image_file` and `confidence`, is returned); no brace
pair is found; or `json.loads` raises.  In both failure branches the exact
same placeholder dictionary is built: `upper_line` is the whole stripped
reply, `lower_line` is empty, the raw reply is kept under `raw_response`,
and no `is_hexagon` key is present.  JSON parsing itself is library code
and is abstracted as the `ParseOutcome` input below. -/

/-- Outcome of looking for and parsing a brace-delimited JSON object in the
provider's reply text. -/
inductive ParseOutcome where
  | noJsonFound
  | decodeFailed
  | parsedOk (is_hexagon : Option Bool) (upper lower : String)
deriving DecidableEq

/-- The dictionary `extract_info_from_hexagon` returns for one artifact.
`is_hexagon = none` models a dictionary with no `is_hexagon` key. -/
structure Judgment where
  image_file : String
  confidence : String
  is_hexagon : Option Bool
  upper_line : String
  lower_line : String
  raw_response : Option String
deriving DecidableEq

/-- Shallow embedding of the reply handling of `extract_info_from_hexagon`
(lines 154-190), given the reply `content` and the parse outcome. -/
def extract_info_from_hexagon (fname conf content : String) :
    ParseOutcome → Judgment
  | .parsedOk ih u l =>
      { image_file := fname, confidence := conf, is_hexagon := ih
      , upper_line := u, lower_line := l, raw_response := none }
  | .noJsonFound =>
      { image_file := fname, confidence := conf, is_hexagon := none
      , upper_line := content.trim, lower_line := ""
      , raw_response := some content }
  | .decodeFailed =>
      { image_file := fname, confidence := conf, is_hexagon := none
      , upper_line := content.trim, lower_line := ""
      , raw_response := some content }

/-- `process_hexagon_folder` appends every non-`None` judgment to
`results` (line 255-258); calls that returned `None` are skipped. -/
def collect_results (calls : List (Option Judgment)) : List Judgment :=
  calls.filterMap id

/-- The validated set written to the `_true_hexagons.json` file:
`[result for result in results if result.get('is_hexagon', False)]`
(line 284) — a missing `is_hexagon` key counts as `False` here. -/
def true_hexagons_filter (results : List Judgment) : List Judgment :=
  results.filter fun r => r.is_hexagon.getD false

/-- The per-item progress display reads
`is_hexagon = extracted_info.get('is_hexagon', True)` (line 261) — a
missing `is_hexagon` key counts as `True` there. -/
def displayIsHexagon (r : Judgment) : Bool := r.is_hexagon.getD true

/-- The output documents `process_hexagon_folder` can write: the full
results file and the filtered `_true_hexagons.json` file. -/
structure ValidationRunFiles where
  resultsFile : Bool
  trueHexagonsFile : Bool
deriving DecidableEq

/-- File-writing behavior of `process_hexagon_folder`
(extract_hexagon_info.py lines 232-307), with one `calls` entry per PNG
crop in folder order: an empty folder returns at once writing nothing
(lines 239-241); otherwise the two output files are written only when at
least one call produced a judgment (`if results:` at line 278). -/
def process_hexagon_folder (calls : List (Option Judgment)) :
    ValidationRunFiles :=
  if calls.isEmpty then { resultsFile := false, trueHexagonsFile := false }
  else if (collect_results calls).isEmpty then
    { resultsFile := false, trueHexagonsFile := false }
  else { resultsFile := true, trueHexagonsFile := true }

/-- The Validation stage wrapper `run_hexagon_validation`
(hexagon_detection_app.py lines 343-370) reports success only when a
`true_hexagons` JSON file exists among the files the script created. -/
def run_hexagon_validation (files : ValidationRunFiles) : Bool :=
  files.trueHexagonsFile

/-! ### enhanced_hexagon_processor.py — the Reconciler (Mapping stage) -/

/-- Digit-string value, for `int(match.group(1))`. -/
def natOfDigits (l : List Char) : ℕ :=
  l.foldl (fun acc c => 10 * acc + (c.toNat - 48)) 0

/-- Leftmost match of the pattern `hexagon_(\d+)`: at the first position
where the text `hexagon_` is followed by at least one digit, return the
maximal digit run after it. -/
def findHexMatch : List Char → Option (List Char)
  | [] => none
  | c :: rest =>
    if ("hexagon_".toList).isPrefixOf (c :: rest) then
      let ds := ((c :: rest).drop 8).takeWhile Char.isDigit
      if ds.isEmpty then findHexMatch rest else some ds
    else findHexMatch rest

/-- Shallow embedding of `extract_hexagon_number` (lines 8-15):
`re.search(r'hexagon_(\d+)', filename)`, `None` when there is no match. -/
def extract_hexagon_number (s : String) : Option ℕ :=
  (findHexMatch s.toList).map natOfDigits

/-- One validated-artifact record of the `_true_hexagons.json` file, with
the fields `map_true_hexagons_to_image` reads (each via `.get` with
default `''`). -/
structure Hexagon where
  image_file : String
  upper_line : String
  lower_line : String
deriving DecidableEq

/-- Grouping key built at lines 70-74: `f"{upper}/{lower}"`. -/
def hexKey (h : Hexagon) : String := h.upper_line ++ "/" ++ h.lower_line

/-- Ordered key insertion of a Python `dict`: a new key is appended, an
existing key left in place. -/
def insertKey (ks : List String) (k : String) : List String :=
  if k ∈ ks then ks else ks ++ [k]

/-- Accumulating pass over the hexagon list building the ordered key list
of the `hexagon_counts` dictionary. -/
def orderedKeysAux : List Hexagon → List String → List String
  | [], acc => acc
  | h :: rest, acc => orderedKeysAux rest (insertKey acc (hexKey h))

/-- Keys of `hexagon_counts`/`all_instances`, in first-insertion order. -/
def orderedKeys (hs : List Hexagon) : List String := orderedKeysAux hs []

/-- Size of the group of key `k`: length of
`hexagon_counts[k]`, i.e. how many hexagons share that joined key. -/
def keyCount (hs : List Hexagon) (k : String) : ℕ :=
  (hs.filter fun h => decide (hexKey h = k)).length

/-- The `all_instances` content reduced to its counts — identical to the
`summary` object the analysis JSON stores (line 203). -/
def instanceSummary (hs : List Hexagon) : List (String × ℕ) :=
  (orderedKeys hs).map fun k => (k, keyCount hs k)

/-- Shallow embedding of `count_duplicate_hexagons` (lines 17-47) and of
the `duplicates` object of lines 78-91: the groups of size at least 2. -/
def count_duplicate_hexagons (hs : List Hexagon) : List (String × ℕ) :=
  (instanceSummary hs).filter fun e => decide (2 ≤ e.2)

/-- Synthetic fallback box of lines 145-150, used when the extracted
number has no entry in the detections dictionary. -/
def fallbackBox (n : ℕ) : BBox :=
  { left := 1/10 + pyMod ((n : ℚ) * (1/20)) (4/5)
  , top := 1/10 + pyMod ((n : ℚ) * (3/100)) (4/5)
  , width := 1/25
  , height := 1/25 }

/-- The `detections` dictionary of lines 107-114: key `i` (starting at 1)
maps to the bounding box of the `i`-th entry of the record's *unfiltered*
prediction list. -/
def detLookup (dets : List Prediction) (n : ℕ) : Option BBox :=
  if n = 0 then none else (dets[n - 1]?).map fun p => p.boundingBox

/-- Box resolution of lines 139-150: the detections-dictionary entry when
present, otherwise the synthetic fallback. -/
def resolveBox (dets : List Prediction) (n : ℕ) : BBox :=
  (detLookup dets n).getD (fallbackBox n)

/-- Pixel rectangle drawn on the annotated image for a resolved box
(lines 158-162): `int()` conversions of the corner products. -/
def mappedPixelRect (b : BBox) (W H : ℕ) : ℤ × ℤ × ℤ × ℤ :=
  (pyInt (b.left * W), pyInt (b.top * H),
   pyInt ((b.left + b.width) * W), pyInt ((b.top + b.height) * H))

/-- One hexagon actually mapped onto the image: the record, the number
parsed from its filename, the resolved box and the drawn pixel rectangle. -/
structure MappedEntry where
  hexagon : Hexagon
  number : ℕ
  box : BBox
  rect : ℤ × ℤ × ℤ × ℤ
deriving DecidableEq

/-- The mapping loop of lines 129-187: a hexagon whose filename yields no
`hexagon_<digits>` number is skipped with `continue`; every other hexagon
gets a rectangle at its resolved box and increments `mapped_count`. -/
def mapLoop (dets : List Prediction) (W H : ℕ) :
    List Hexagon → List MappedEntry
  | [] => []
  | h :: rest =>
    match extract_hexagon_number h.image_file with
    | none => mapLoop dets W H rest
    | some n =>
        { hexagon := h, number := n, box := resolveBox dets n
        , rect := mappedPixelRect (resolveBox dets n) W H } ::
          mapLoop dets W H rest

/-- Everything `map_true_hexagons_to_image` computes and writes on its
success path: the drawn entries, `mapped_count`, the analysis-JSON fields
(`total_hexagons`, `unique_combinations`, `summary`, `duplicates`), the
two output documents, and the returned status. -/
structure MapOutput where
  mapped : List MappedEntry
  mappedCount : ℕ
  totalHexagons : ℕ
  uniqueCombinations : ℕ
  summary : List (String × ℕ)
  duplicates : List (String × ℕ)
  imageSaved : Bool
  reportSaved : Bool
  success : Bool
deriving DecidableEq

/-- Shallow embedding of `map_true_hexagons_to_image` (lines 49-211) on a
readable original image of pixel size `W×H`: the function never raises on
such inputs — in particular an empty `true_hexagons` list just produces an
unmarked copy of the image and an all-zero analysis report — and both
output documents are written before it returns `True`.  `detection_data`
is the parsed detection record when the optional detection JSON exists. -/
def map_true_hexagons_to_image (W H : ℕ) (true_hexagons : List Hexagon)
    (detection_data : Option (List Prediction)) : MapOutput :=
  let dets := detection_data.getD []
  let mapped := mapLoop dets W H true_hexagons
  { mapped := mapped
  , mappedCount := mapped.length
  , totalHexagons := true_hexagons.length
  , uniqueCombinations := (orderedKeys true_hexagons).length
  , summary := instanceSummary true_hexagons
  , duplicates := count_duplicate_hexagons true_hexagons
  , imageSaved := true
  , reportSaved := true
  , success := true }

/-! ### hexagon_detection_app.py — the orchestrator

The processing block of `main` (lines 544-684) runs the four stages in
order (0 Detection, 1 Extraction, 2 Validation, 3 Mapping).  After each
stage it checks the cancellation flag (the Stop button clears
`processing_started`); an observed cancellation sets `processing_halted`
and aborts the script run before the stage's success is recorded.  A stage
failure also halts.  When all four stages are recorded completed the run
is marked completed.  A stage only runs when all earlier stages are
recorded completed, so nothing runs after a halt. -/

/-- Orchestrator session state: the recorded completed stages, the
`processing_started` / `processing_completed` / `processing_halted` flags
and (for specification purposes) the list of stages actually invoked. -/
structure Session where
  completedSteps : List ℕ
  started : Bool
  completed : Bool
  halted : Bool
  executed : List ℕ
deriving DecidableEq

/-- Session state at the moment the Start button launches processing. -/
def initSession : Session :=
  { completedSteps := [], started := true, completed := false
  , halted := false, executed := [] }

/-- A cancellation issued while stage `c` is running is observed at every
stage boundary from the one right after stage `c` on. -/
def cancelObserved (cancel : Option ℕ) (i : ℕ) : Bool :=
  match cancel with
  | some c => decide (c ≤ i)
  | none => false

/-- One pass over the remaining stages: run the stage, observe
cancellation at the boundary, record success, stop on failure; mark the
run completed when all four stages are recorded. -/
def stepStages (succ : ℕ → Bool) (cancel : Option ℕ) :
    List ℕ → Session → Session
  | [], s =>
      if s.completedSteps.length = 4 then
        { s with completed := true, started := false }
      else s
  | i :: rest, s =>
      let s1 := { s with executed := s.executed ++ [i] }
      if cancelObserved cancel i then
        { s1 with started := false, halted := true }
      else if succ i then
        stepStages succ cancel rest
          { s1 with completedSteps := s1.completedSteps ++ [i] }
      else
        { s1 with started := false, completed := false, halted := true }

/-- A whole processing run: stages 0-3 from the launch state, with `succ`
telling which stages succeed and `cancel` the stage during which the user
pressed Stop (if any). -/
def run_pipeline (succ : ℕ → Bool) (cancel : Option ℕ) : Session :=
  stepStages succ cancel [0, 1, 2, 3] initSession

/-! ### Helper lemmas -/

lemma numberFrom_map_seqIndex (W H : ℕ) :
    ∀ (l : List Prediction) (n : ℕ),
      (numberFrom W H n l).map (fun a => a.seqIndex) = List.range' n l.length
  | [], _ => rfl
  | p :: ps, n => by
      simp [numberFrom, numberFrom_map_seqIndex W H ps (n + 1), List.range'_succ]

lemma numberFrom_map_payload (W H : ℕ) :
    ∀ (l : List Prediction) (n : ℕ),
      (numberFrom W H n l).map (fun a => (a.probability, a.crop)) =
        l.map (fun p => (p.probability, cropRect p.boundingBox W H (1/10)))
  | [], _ => rfl
  | p :: ps, n => by
      simp [numberFrom, numberFrom_map_payload W H ps (n + 1)]

lemma mapLoop_hexnum_isSome (dets : List Prediction) (W H : ℕ) :
    ∀ (l : List Hexagon), ∀ e ∈ mapLoop dets W H l,
      (extract_hexagon_number e.hexagon.image_file).isSome = true
  | h :: rest, e, he => by
      cases hp : extract_hexagon_number h.image_file with
      | none =>
          rw [mapLoop, hp] at he
          exact mapLoop_hexnum_isSome dets W H rest e he
      | some n =>
          rw [mapLoop, hp] at he
          rcases List.mem_cons.mp he with rfl | he'
          · simp [hp]
          · exact mapLoop_hexnum_isSome dets W H rest e he'

lemma mapLoop_length_eq (dets : List Prediction) (W H : ℕ) :
    ∀ (l : List Hexagon),
      (mapLoop dets W H l).length =
        (l.filter fun x => (extract_hexagon_number x.image_file).isSome).length
  | [] => rfl
  | h :: rest => by
      cases hp : extract_hexagon_number h.image_file with
      | none => simp [mapLoop, hp, List.filter, mapLoop_length_eq dets W H rest]
      | some n => simp [mapLoop, hp, List.filter, mapLoop_length_eq dets W H rest]

lemma mem_insertKey_of_mem {ks : List String} {k : String} (k' : String)
    (hk : k ∈ ks) : k ∈ insertKey ks k' := by
  unfold insertKey
  split
  · exact hk
  · exact List.mem_append_left _ hk

lemma self_mem_insertKey (ks : List String) (k : String) : k ∈ insertKey ks k := by
  unfold insertKey
  split
  · assumption
  · exact List.mem_append_right _ (List.mem_singleton.mpr rfl)

lemma mem_orderedKeysAux_of_mem_acc :
    ∀ (l : List Hexagon) (acc : List String) (k : String),
      k ∈ acc → k ∈ orderedKeysAux l acc
  | [], _, _, hk => hk
  | _ :: rest, _, k, hk =>
      mem_orderedKeysAux_of_mem_acc rest _ k (mem_insertKey_of_mem _ hk)

lemma hexKey_mem_orderedKeysAux :
    ∀ (l : List Hexagon) (acc : List String) (h : Hexagon),
      h ∈ l → hexKey h ∈ orderedKeysAux l acc
  | h' :: rest, acc, h, hmem => by
      rcases List.mem_cons.mp hmem with rfl | hmem
      · exact mem_orderedKeysAux_of_mem_acc rest _ _ (self_mem_insertKey acc _)
      · exact hexKey_mem_orderedKeysAux rest _ h hmem

lemma keyCount_pos {hs : List Hexagon} {h : Hexagon} (hmem : h ∈ hs) :
    0 < keyCount hs (hexKey h) := by
  unfold keyCount
  exact List.length_pos.mpr
    (List.ne_nil_of_mem (List.mem_filter.mpr ⟨hmem, by simp⟩))

lemma cropRect_example_eval :
    cropRect ⟨1/10, 1/5, 1/20, 1/20⟩ 1000 800 (1/10) = ⟨95, 156, 155, 204⟩ := by
  simp only [cropRect, pyInt, CropRect.mk.injEq]
  norm_num

/-! ### Claims -/

/-- C9 (confirmed): for every detection box, image dimensions and padding
fraction, the crop rectangle of the Extractor is clamped to the image:
its left and top are never negative, and its right and bottom never
exceed the image width and height. -/
theorem crop_region_clamped_to_image_bounds (b : BBox) (W H : ℕ) (pf : ℚ) :
    0 ≤ (cropRect b W H pf).crop_left ∧
    0 ≤ (cropRect b W H pf).crop_top ∧
    (cropRect b W H pf).crop_right ≤ (W : ℤ) ∧
    (cropRect b W H pf).crop_bottom ≤ (H : ℤ) :=
  ⟨le_max_left _ _, le_max_left _ _, min_le_left _ _, min_le_left _ _⟩

/-- C5 (counterexample): extracting the detection box
`(left 0.1, top 0.2, width 0.05, height 0.05)` from a 1000×800 image with
padding fraction 0.10 does not give the region (95,155)-(155,215) the
claim states. -/
theorem crop_example_differs_from_spec :
    cropRect ⟨1/10, 1/5, 1/20, 1/20⟩ 1000 800 (1/10) ≠ ⟨95, 155, 155, 215⟩ := by
  rw [cropRect_example_eval]
  decide

/-- C5 (amended): that extraction gives the crop region (95,156)-(155,204):
the pixel box is (100,160)-(150,200) and the padding is 5 px horizontally
and 4 px vertically on each side, clamping not engaging. -/
theorem crop_example_actual_region :
    cropRect ⟨1/10, 1/5, 1/20, 1/20⟩ 1000 800 (1/10) = ⟨95, 156, 155, 204⟩ :=
  cropRect_example_eval

/-- C2 (counterexample): called with an empty validation-result list (and a
readable 640×480 image with an empty detection record), the Reconciler
returns success and writes both the annotated image and the instance
report — it does not fail, and partial outputs are written. -/
theorem mapping_empty_success_at_concrete_input :
    (map_true_hexagons_to_image 640 480 [] (some [])).success = true ∧
    (map_true_hexagons_to_image 640 480 [] (some [])).imageSaved = true ∧
    (map_true_hexagons_to_image 640 480 [] (some [])).reportSaved = true :=
  ⟨rfl, rfl, rfl⟩

/-- C2 (amended): a Reconciler call with an empty validation-result list
does not fail: it returns success, writing the (unmarked) annotated image
and an instance report with zero totals and no groups — no MappingError
exists in the code.  A zero-detection run still ends Halted rather than
Completed, but at the Validation stage, not Mapping: zero
extraction-threshold survivors yield zero artifacts, the validation
script then writes no true-hexagons file so the Validation stage wrapper
reports failure, and the orchestrator halts with Detection and Extraction
recorded completed and the Mapping stage never invoked. -/
theorem empty_run_reconciler_succeeds_but_halts_at_validation
    (W H : ℕ) (dets : Option (List Prediction)) (preds : List Prediction)
    (t : ℚ) (succ : ℕ → Bool)
    (hzero : high_confidence_predictions preds t = [])
    (h0 : succ 0 = true) (h1 : succ 1 = true)
    (h2 : succ 2 = run_hexagon_validation (process_hexagon_folder [])) :
    (map_true_hexagons_to_image W H [] dets).success = true ∧
    (map_true_hexagons_to_image W H [] dets).imageSaved = true ∧
    (map_true_hexagons_to_image W H [] dets).reportSaved = true ∧
    (map_true_hexagons_to_image W H [] dets).mapped = [] ∧
    (map_true_hexagons_to_image W H [] dets).mappedCount = 0 ∧
    (map_true_hexagons_to_image W H [] dets).totalHexagons = 0 ∧
    (map_true_hexagons_to_image W H [] dets).summary = [] ∧
    (map_true_hexagons_to_image W H [] dets).duplicates = [] ∧
    extract_hexagons preds W H t = [] ∧
    (process_hexagon_folder []).resultsFile = false ∧
    (process_hexagon_folder []).trueHexagonsFile = false ∧
    run_hexagon_validation (process_hexagon_folder []) = false ∧
    (run_pipeline succ none).halted = true ∧
    (run_pipeline succ none).completed = false ∧
    (run_pipeline succ none).completedSteps = [0, 1] ∧
    3 ∉ (run_pipeline succ none).executed := by
  have h2' : succ 2 = false := h2
  refine ⟨rfl, rfl, rfl, rfl, rfl, rfl, rfl, rfl, ?_, rfl, rfl, rfl, ?_⟩
  · rw [extract_hexagons, hzero]
    rfl
  · simp [run_pipeline, stepStages, cancelObserved, initSession, h0, h1, h2']

/-- C2 witness: the zero-detection scenario at concrete inputs — an empty
prediction list, extraction threshold 0.70, and the stage oracle such a
run produces (Detection and Extraction succeed, Validation fails for want
of a true-hexagons file). -/
theorem empty_run_reconciler_succeeds_but_halts_at_validation_witness :
    (map_true_hexagons_to_image 640 480 [] (some [])).success = true ∧
    (map_true_hexagons_to_image 640 480 [] (some [])).imageSaved = true ∧
    (map_true_hexagons_to_image 640 480 [] (some [])).reportSaved = true ∧
    (map_true_hexagons_to_image 640 480 [] (some [])).mapped = [] ∧
    (map_true_hexagons_to_image 640 480 [] (some [])).mappedCount = 0 ∧
    (map_true_hexagons_to_image 640 480 [] (some [])).totalHexagons = 0 ∧
    (map_true_hexagons_to_image 640 480 [] (some [])).summary = [] ∧
    (map_true_hexagons_to_image 640 480 [] (some [])).duplicates = [] ∧
    extract_hexagons [] 640 480 (7/10) = [] ∧
    (process_hexagon_folder []).resultsFile = false ∧
    (process_hexagon_folder []).trueHexagonsFile = false ∧
    run_hexagon_validation (process_hexagon_folder []) = false ∧
    (run_pipeline (fun n => decide (n < 2)) none).halted = true ∧
    (run_pipeline (fun n => decide (n < 2)) none).completed = false ∧
    (run_pipeline (fun n => decide (n < 2)) none).completedSteps = [0, 1] ∧
    3 ∉ (run_pipeline (fun n => decide (n < 2)) none).executed :=
  empty_run_reconciler_succeeds_but_halts_at_validation 640 480 (some [])
    [] (7/10) (fun n => decide (n < 2)) rfl rfl rfl rfl

/-- C6 (confirmed): the sequence indices the Extractor assigns to its `N`
surviving detections are exactly `1..N` (contiguous, starting at 1), and
the `i`-th artifact carries the confidence and crop of the `i`-th
survivor in original provider order. -/
theorem extraction_indices_contiguous (preds : List Prediction) (W H : ℕ)
    (t : ℚ) :
    (extract_hexagons preds W H t).map (fun a => a.seqIndex) =
      List.range' 1 (high_confidence_predictions preds t).length ∧
    (extract_hexagons preds W H t).map (fun a => (a.probability, a.crop)) =
      (high_confidence_predictions preds t).map
        (fun p => (p.probability, cropRect p.boundingBox W H (1/10))) :=
  ⟨numberFrom_map_seqIndex W H _ 1, numberFrom_map_payload W H _ 1⟩

/-- C8 (confirmed): a user cancellation issued while the Validation stage
(stage 2) is running is observed at the next stage boundary: the Mapping
stage (stage 3) is never invoked, the session ends halted and not
completed, and the stages recorded completed before the cancellation
(Detection and Extraction) stay recorded. -/
theorem cancellation_during_validation_halts (succ : ℕ → Bool)
    (h0 : succ 0 = true) (h1 : succ 1 = true) :
    (run_pipeline succ (some 2)).halted = true ∧
    (run_pipeline succ (some 2)).completed = false ∧
    (run_pipeline succ (some 2)).completedSteps = [0, 1] ∧
    (run_pipeline succ (some 2)).executed = [0, 1, 2] ∧
    3 ∉ (run_pipeline succ (some 2)).executed := by
  simp [run_pipeline, stepStages, cancelObserved, initSession, h0, h1]

/-- C8 witness: the cancellation scenario at a concrete all-succeeding
stage oracle. -/
theorem cancellation_during_validation_halts_witness :
    (run_pipeline (fun _ => true) (some 2)).halted = true ∧
    (run_pipeline (fun _ => true) (some 2)).completed = false ∧
    (run_pipeline (fun _ => true) (some 2)).completedSteps = [0, 1] ∧
    (run_pipeline (fun _ => true) (some 2)).executed = [0, 1, 2] ∧
    3 ∉ (run_pipeline (fun _ => true) (some 2)).executed :=
  cancellation_during_validation_halts (fun _ => true) rfl rfl

/-- C7 (counterexample): three validated artifacts whose
`(upper_line, lower_line)` pairs are pairwise distinct can produce two
groups instead of three, because grouping joins the two lines with the
separator `/` and a line containing `/` makes distinct pairs collide. -/
theorem grouping_pair_collision :
    ((Hexagon.mk "hexagon_001.png" "A/B" "C").upper_line,
      (Hexagon.mk "hexagon_001.png" "A/B" "C").lower_line) ≠
      ((Hexagon.mk "hexagon_002.png" "A" "B/C").upper_line,
        (Hexagon.mk "hexagon_002.png" "A" "B/C").lower_line) ∧
    ((Hexagon.mk "hexagon_001.png" "A/B" "C").upper_line,
      (Hexagon.mk "hexagon_001.png" "A/B" "C").lower_line) ≠
      ((Hexagon.mk "hexagon_003.png" "X" "Y").upper_line,
        (Hexagon.mk "hexagon_003.png" "X" "Y").lower_line) ∧
    ((Hexagon.mk "hexagon_002.png" "A" "B/C").upper_line,
      (Hexagon.mk "hexagon_002.png" "A" "B/C").lower_line) ≠
      ((Hexagon.mk "hexagon_003.png" "X" "Y").upper_line,
        (Hexagon.mk "hexagon_003.png" "X" "Y").lower_line) ∧
    (map_true_hexagons_to_image 100 100
        [Hexagon.mk "hexagon_001.png" "A/B" "C",
         Hexagon.mk "hexagon_002.png" "A" "B/C",
         Hexagon.mk "hexagon_003.png" "X" "Y"] none).summary =
      [("A/B/C", 2), ("X/Y", 1)] := by
  refine ⟨by decide, by decide, by decide, ?_⟩
  decide

/-- C7 (amended): the Reconciler groups by the joined string
`upper_line ++ "/" ++ lower_line`: two artifacts with the same joined key
give exactly one group with count 2, and three artifacts with pairwise
distinct joined keys give exactly three groups, each with count 1
(distinct `(upper, lower)` pairs can still collide when a line contains
the separator). -/
theorem grouping_by_joined_key (W H : ℕ) (dets : Option (List Prediction)) :
    (∀ h1 h2 : Hexagon, hexKey h1 = hexKey h2 →
      (map_true_hexagons_to_image W H [h1, h2] dets).summary =
        [(hexKey h1, 2)]) ∧
    (∀ g1 g2 g3 : Hexagon, hexKey g1 ≠ hexKey g2 → hexKey g1 ≠ hexKey g3 →
      hexKey g2 ≠ hexKey g3 →
      (map_true_hexagons_to_image W H [g1, g2, g3] dets).summary =
        [(hexKey g1, 1), (hexKey g2, 1), (hexKey g3, 1)]) := by
  constructor
  · intro h1 h2 h12
    simp [map_true_hexagons_to_image, instanceSummary, orderedKeys,
      orderedKeysAux, insertKey, keyCount, h12]
  · intro g1 g2 g3 d12 d13 d23
    simp [map_true_hexagons_to_image, instanceSummary, orderedKeys,
      orderedKeysAux, insertKey, keyCount, d12, d13, d23,
      Ne.symm d12, Ne.symm d13, Ne.symm d23]

/-- C7 witness: the two grouping scenarios at concrete artifacts. -/
theorem grouping_by_joined_key_witness :
    (map_true_hexagons_to_image 10 10
        [Hexagon.mk "f1.png" "A1" "B2", Hexagon.mk "f2.png" "A1" "B2"]
        none).summary = [(hexKey (Hexagon.mk "f1.png" "A1" "B2"), 2)] ∧
    (map_true_hexagons_to_image 10 10
        [Hexagon.mk "a.png" "A1" "B2", Hexagon.mk "b.png" "C3" "D4",
         Hexagon.mk "c.png" "E5" "F6"] none).summary =
      [(hexKey (Hexagon.mk "a.png" "A1" "B2"), 1),
       (hexKey (Hexagon.mk "b.png" "C3" "D4"), 1),
       (hexKey (Hexagon.mk "c.png" "E5" "F6"), 1)] :=
  ⟨(grouping_by_joined_key 10 10 none).1 _ _ rfl,
   (grouping_by_joined_key 10 10 none).2 _ _ _ (by decide) (by decide)
     (by decide)⟩

/-- C3 (counterexample): when the provider reply cannot be parsed as JSON,
the placeholder judgment carries no `is_hexagon` key at all (so `is_marker`
is not set true), and the artifact is dropped from the validated
(true-hexagons) set handed to the Mapping stage. -/
theorem parse_failure_excluded_at_concrete_input :
    (extract_info_from_hexagon "hexagon_001_conf_90%.png" "90%"
        "The image shows a circle, not a hexagon." .decodeFailed).is_hexagon ≠
      some true ∧
    true_hexagons_filter (collect_results
        [some (extract_info_from_hexagon "hexagon_001_conf_90%.png" "90%"
          "The image shows a circle, not a hexagon." .decodeFailed)]) = [] :=
  ⟨fun hcon => Option.noConfusion hcon, rfl⟩

/-- C3 (amended): a parse failure still yields a placeholder judgment with
the raw reply preserved and the stripped reply as `upper_line`, and the
artifact is kept in the full results file; but the placeholder has no
`is_hexagon` field, so the artifact is excluded from the validated
true-hexagons set handed to later stages (only the per-item progress
display treats the missing field as true). -/
theorem parse_failure_placeholder_behavior :
    (∀ fname conf content : String,
      (extract_info_from_hexagon fname conf content .noJsonFound).raw_response
          = some content ∧
      (extract_info_from_hexagon fname conf content .noJsonFound).upper_line
          = content.trim ∧
      (extract_info_from_hexagon fname conf content .noJsonFound).lower_line
          = "" ∧
      (extract_info_from_hexagon fname conf content .noJsonFound).is_hexagon
          = none ∧
      collect_results [some (extract_info_from_hexagon fname conf content
          .noJsonFound)] =
        [extract_info_from_hexagon fname conf content .noJsonFound] ∧
      true_hexagons_filter
          [extract_info_from_hexagon fname conf content .noJsonFound] = [] ∧
      displayIsHexagon (extract_info_from_hexagon fname conf content
          .noJsonFound) = true) ∧
    (∀ fname conf content : String,
      (extract_info_from_hexagon fname conf content .decodeFailed).raw_response
          = some content ∧
      (extract_info_from_hexagon fname conf content .decodeFailed).upper_line
          = content.trim ∧
      (extract_info_from_hexagon fname conf content .decodeFailed).lower_line
          = "" ∧
      (extract_info_from_hexagon fname conf content .decodeFailed).is_hexagon
          = none ∧
      collect_results [some (extract_info_from_hexagon fname conf content
          .decodeFailed)] =
        [extract_info_from_hexagon fname conf content .decodeFailed] ∧
      true_hexagons_filter
          [extract_info_from_hexagon fname conf content .decodeFailed] = [] ∧
      displayIsHexagon (extract_info_from_hexagon fname conf content
          .decodeFailed) = true) :=
  ⟨fun _ _ _ => ⟨rfl, rfl, rfl, rfl, rfl, rfl, rfl⟩,
   fun _ _ _ => ⟨rfl, rfl, rfl, rfl, rfl, rfl, rfl⟩⟩

/-- C4 (counterexample): with display threshold 0.5, a 0.3-confidence
detection gets no rectangle drawn, yet it is persisted in the detection
record written by the Annotation stage — the record holds the full
unfiltered prediction list, not only the at-or-above-threshold set. -/
theorem below_threshold_persisted_at_concrete_input :
    (visualize_detections
        [Prediction.mk "hexagon" (3/10) ⟨1/10, 1/10, 1/10, 1/10⟩,
         Prediction.mk "hexagon" (4/5) ⟨1/2, 1/2, 1/5, 1/5⟩]
        1000 800 (1/2)).drawn.map Prod.fst =
      [Prediction.mk "hexagon" (4/5) ⟨1/2, 1/2, 1/5, 1/5⟩] ∧
    Prediction.mk "hexagon" (3/10) ⟨1/10, 1/10, 1/10, 1/10⟩ ∈
      (visualize_detections
        [Prediction.mk "hexagon" (3/10) ⟨1/10, 1/10, 1/10, 1/10⟩,
         Prediction.mk "hexagon" (4/5) ⟨1/2, 1/2, 1/5, 1/5⟩]
        1000 800 (1/2)).detection_record.predictions ∧
    (Prediction.mk "hexagon" (3/10) ⟨1/10, 1/10, 1/10, 1/10⟩).probability
      < 1/2 := by
  refine ⟨?_, List.mem_cons_self _ _, by norm_num⟩
  simp only [visualize_detections, List.filter_cons, List.filter_nil]
  norm_num

/-- C4 (amended): detections below the display threshold are never drawn
(the drawn set is exactly the at-or-above-threshold detections), but the
persisted detection record contains the complete unfiltered prediction
list, below-threshold detections included. -/
theorem drawn_filtered_record_unfiltered (preds : List Prediction)
    (W H : ℕ) (t : ℚ) (p : Prediction) :
    (p ∈ (visualize_detections preds W H t).drawn.map Prod.fst ↔
      p ∈ preds ∧ t ≤ p.probability) ∧
    (visualize_detections preds W H t).detection_record.predictions = preds := by
  constructor
  · simp [visualize_detections, List.mem_filter]
  · rfl

/-- C1 (divergence): at a two-detection record whose first detection is
below the 0.70 extraction threshold, the Extractor's sole artifact (rank 1,
saved as `hexagon_001_conf_90%.png`) is cropped from the second,
high-confidence detection, but the Reconciler resolves number 1 against
the record's *unfiltered* prediction list and draws the below-threshold
first detection's box — not the box of the first threshold survivor. -/
theorem mapping_indexes_unfiltered_detections :
    let boxLow : BBox := ⟨1/10, 1/10, 1/10, 1/10⟩
    let boxHigh : BBox := ⟨1/2, 1/2, 1/5, 1/5⟩
    let preds : List Prediction :=
      [⟨"hexagon", 1/2, boxLow⟩, ⟨"hexagon", 9/10, boxHigh⟩]
    let hex : Hexagon := ⟨"hexagon_001_conf_90%.png", "A1", "B2"⟩
    high_confidence_predictions preds (7/10) =
      [⟨"hexagon", 9/10, boxHigh⟩] ∧
    (extract_hexagons preds 1000 800 (7/10)).map
        (fun a => (a.seqIndex, a.filename)) =
      [(1, "hexagon_001_conf_90%.png")] ∧
    extract_hexagon_number "hexagon_001_conf_90%.png" = some 1 ∧
    (map_true_hexagons_to_image 1000 800 [hex] (some preds)).mapped.map
        (fun e => (e.hexagon, e.number, e.box)) = [(hex, 1, boxLow)] ∧
    boxLow ≠ boxHigh := by
  intro boxLow boxHigh preds hex
  have hnum : extract_hexagon_number "hexagon_001_conf_90%.png" = some 1 := by
    decide
  have hname : hexFileName 1 (9/10) = "hexagon_001_conf_90%.png" := by
    have hr : round ((9:ℚ)/10 * 100) = 90 := by norm_num [round_eq]
    unfold hexFileName percentStr pad3
    rw [hr]
    decide
  have hsurv : high_confidence_predictions preds (7/10) =
      [⟨"hexagon", 9/10, boxHigh⟩] := by
    simp only [preds, high_confidence_predictions, List.filter_cons,
      List.filter_nil]
    norm_num
  refine ⟨hsurv, ?_, hnum, ?_, ?_⟩
  · rw [extract_hexagons, hsurv]
    simp [numberFrom, hname]
  · simp [map_true_hexagons_to_image, mapLoop, hex, hnum, resolveBox,
      detLookup, preds]
  · simp only [boxLow, boxHigh, ne_eq, BBox.mk.injEq]
    norm_num

/-- C10 (confirmed): a validated artifact whose `image_file` contains no
`hexagon_<digits>` substring is silently skipped by the Mapping stage's
visual pass — no rectangle is drawn for it and it is absent from the
mapped count — yet it is still counted in `total_hexagons`, its key still
appears in the instance groups with it counted in the group count, and
the stage still reports success. -/
theorem unmatched_artifact_skipped_but_counted (W H : ℕ)
    (dets : Option (List Prediction)) (hexs : List Hexagon) (h : Hexagon)
    (hmem : h ∈ hexs)
    (hnone : extract_hexagon_number h.image_file = none) :
    (∀ e ∈ (map_true_hexagons_to_image W H hexs dets).mapped,
      e.hexagon ≠ h) ∧
    (map_true_hexagons_to_image W H hexs dets).mappedCount =
      (hexs.filter fun x =>
        (extract_hexagon_number x.image_file).isSome).length ∧
    (map_true_hexagons_to_image W H hexs dets).totalHexagons = hexs.length ∧
    hexKey h ∈ orderedKeys hexs ∧
    (hexKey h, keyCount hexs (hexKey h)) ∈
      (map_true_hexagons_to_image W H hexs dets).summary ∧
    0 < keyCount hexs (hexKey h) ∧
    (map_true_hexagons_to_image W H hexs dets).success = true := by
  refine ⟨?_, mapLoop_length_eq _ W H hexs, rfl,
    hexKey_mem_orderedKeysAux hexs [] h hmem,
    List.mem_map_of_mem _ (hexKey_mem_orderedKeysAux hexs [] h hmem),
    keyCount_pos hmem, rfl⟩
  intro e he heq
  have hs := mapLoop_hexnum_isSome (dets.getD []) W H hexs e he
  rw [heq, hnone] at hs
  simp at hs

/-- C10 witness: the skipped-but-counted behavior at a one-artifact
validated set whose filename has no `hexagon_<digits>` substring. -/
theorem unmatched_artifact_skipped_but_counted_witness :
    (∀ e ∈ (map_true_hexagons_to_image 50 50
        [Hexagon.mk "circle_01.png" "A1" "B2"] none).mapped,
      e.hexagon ≠ Hexagon.mk "circle_01.png" "A1" "B2") ∧
    (map_true_hexagons_to_image 50 50
        [Hexagon.mk "circle_01.png" "A1" "B2"] none).mappedCount =
      ([Hexagon.mk "circle_01.png" "A1" "B2"].filter fun x =>
        (extract_hexagon_number x.image_file).isSome).length ∧
    (map_true_hexagons_to_image 50 50
        [Hexagon.mk "circle_01.png" "A1" "B2"] none).totalHexagons =
      [Hexagon.mk "circle_01.png" "A1" "B2"].length ∧
    hexKey (Hexagon.mk "circle_01.png" "A1" "B2") ∈
      orderedKeys [Hexagon.mk "circle_01.png" "A1" "B2"] ∧
    (hexKey (Hexagon.mk "circle_01.png" "A1" "B2"),
      keyCount [Hexagon.mk "circle_01.png" "A1" "B2"]
        (hexKey (Hexagon.mk "circle_01.png" "A1" "B2"))) ∈
      (map_true_hexagons_to_image 50 50
        [Hexagon.mk "circle_01.png" "A1" "B2"] none).summary ∧
    0 < keyCount [Hexagon.mk "circle_01.png" "A1" "B2"]
        (hexKey (Hexagon.mk "circle_01.png" "A1" "B2")) ∧
    (map_true_hexagons_to_image 50 50
        [Hexagon.mk "circle_01.png" "A1" "B2"] none).success = true :=
  unmatched_artifact_skipped_but_counted 50 50 none
    [Hexagon.mk "circle_01.png" "A1" "B2"]
    (Hexagon.mk "circle_01.png" "A1" "B2") (by decide) (by decide)

end DCCE
